import Mathlib

/-!
Verification development for the IFC geometry parameter parser
(src/qto_buccaneer/visualization.py): placement-chain resolution,
profile extraction, mesh synthesis and boolean subtraction.

Python floating-point numbers are modelled as real numbers; numpy
length-3 arrays as triples of reals; numpy 4x4 matrices as
Matrix (Fin 4) (Fin 4) over the reals; Python dictionaries whose keys
are fixed by the source as structures with Option-valued fields where
a key may be absent.
-/

noncomputable section

namespace QtoViz

/-- A 3-component vector of reals (a numpy length-3 array). -/
abbrev V3 : Type := ℝ × ℝ × ℝ

/-- Componentwise sum of two 3-vectors. -/
def add3 (v w : V3) : V3 := (v.1 + w.1, v.2.1 + w.2.1, v.2.2 + w.2.2)

/-- Scalar multiple of a 3-vector (numpy array * scalar). -/
def smul3 (c : ℝ) (v : V3) : V3 := (c * v.1, c * v.2.1, c * v.2.2)

/-- Componentwise division of a 3-vector by a scalar (numpy array / scalar). -/
def div3 (v : V3) (c : ℝ) : V3 := (v.1 / c, v.2.1 / c, v.2.2 / c)

/-- Dot product of two 3-vectors. -/
def dot3 (v w : V3) : ℝ := v.1 * w.1 + v.2.1 * w.2.1 + v.2.2 * w.2.2

/-- Cross product of two 3-vectors (numpy.cross). -/
def cross3 (v w : V3) : V3 :=
  (v.2.1 * w.2.2 - v.2.2 * w.2.1,
   v.2.2 * w.1 - v.1 * w.2.2,
   v.1 * w.2.1 - v.2.1 * w.1)

/-- Euclidean norm of a 3-vector (numpy.linalg.norm). -/
def norm3 (v : V3) : ℝ := Real.sqrt (dot3 v v)

/-- A numpy 4x4 homogeneous transform. -/
abbrev Mat4 : Type := Matrix (Fin 4) (Fin 4) ℝ

/-- The pure-translation 4x4 matrix (identity rotation part). -/
def transMat (t : V3) : Mat4 :=
  !![1, 0, 0, t.1;
     0, 1, 0, t.2.1;
     0, 0, 1, t.2.2;
     0, 0, 0, 1]

/-- The upper-left 3x3 rotation block of a 4x4 transform. -/
def rotPart (M : Mat4) : Matrix (Fin 3) (Fin 3) ℝ :=
  Matrix.of fun i j => M (Fin.castSucc i) (Fin.castSucc j)

/-! ## IFCGeometryParameterParser: low-level attribute extraction -/

/-- `extract_cartesian_point`: coordinates of an IfcCartesianPoint
(its Coordinates attribute, a list of reals); 2-component points are
zero-padded, anything else defaults to the origin. -/
def extract_cartesian_point : Option (List ℝ) → V3
  | none => (0, 0, 0)
  | some [x, y] => (x, y, 0)
  | some [x, y, z] => (x, y, z)
  | some _ => (0, 0, 0)

/-- `extract_direction`: an IfcDirection's DirectionRatios; 2-component
ratios are zero-padded, a missing direction defaults to +Z. -/
def extract_direction : Option (List ℝ) → V3
  | none => (0, 0, 1)
  | some [x, y] => (x, y, 0)
  | some [x, y, z] => (x, y, z)
  | some _ => (0, 0, 1)

/-- `extract_polyline`: the points of an IfcPolyline (its Points
attribute, each point given by its Coordinates), extracted in order. -/
def extract_polyline : Option (List (List ℝ)) → List V3
  | none => []
  | some points => points.map fun p => extract_cartesian_point (some p)

/-- `extract_indexed_poly_curve`: the CoordList of an
IfcIndexedPolyCurve's point list; each coordinate row is read as
(c0, c1, c2 when present else 0).  Row indexing is modelled with a 0
default for out-of-range components. -/
def extract_indexed_poly_curve : Option (List (List ℝ)) → List V3
  | none => []
  | some coords => coords.map fun c =>
      (c.getD 0 0, c.getD 1 0, if 2 < c.length then c.getD 2 0 else 0)

/-! ## Profile definitions -/

/-- The OuterCurve of an IfcArbitraryClosedProfileDef. -/
inductive CurveDef : Type
  | polyline (points : List (List ℝ))
  | indexedPolyCurve (coordList : Option (List (List ℝ)))
  | otherCurve

/-- The closed set of IfcProfileDef variants the parser dispatches on.
Each constructor carries the attributes the source reads. -/
inductive ProfileDef : Type
  | rectangle (profileName : Option String) (xdim ydim : ℝ)
  | circle (profileName : Option String) (radius : ℝ)
  | arbitraryClosed (profileName : Option String) (outerCurve : CurveDef)
  | ishape (profileName : Option String)
      (overallWidth overallDepth webThickness flangeThickness : ℝ)
  | otherProfile (profileName : Option String) (kind : String)

/-- The `is_a()` type string of a profile definition. -/
def ProfileDef.typeString : ProfileDef → String
  | .rectangle .. => "IfcRectangleProfileDef"
  | .circle .. => "IfcCircleProfileDef"
  | .arbitraryClosed .. => "IfcArbitraryClosedProfileDef"
  | .ishape .. => "IfcIShapeProfileDef"
  | .otherProfile _ kind => kind

/-- The ProfileName attribute of a profile definition. -/
def ProfileDef.profileNameOf : ProfileDef → Option String
  | .rectangle nm .. => nm
  | .circle nm .. => nm
  | .arbitraryClosed nm _ => nm
  | .ishape nm .. => nm
  | .otherProfile nm _ => nm

/-- The dictionary returned by `extract_profile_def`; a `none` field
models an absent key. -/
structure ProfileData : Type where
  type : Option String := none
  name : Option String := none
  width : Option ℝ := none
  height : Option ℝ := none
  radius : Option ℝ := none
  overall_width : Option ℝ := none
  overall_depth : Option ℝ := none
  web_thickness : Option ℝ := none
  flange_thickness : Option ℝ := none
  profile_vertices : Option (List V3) := none

/-- The 32+1 sampled points of a circle profile: for i in 0..32, the
point (R cos(2 pi i / 32), R sin(2 pi i / 32), 0). -/
def circlePoints (radius : ℝ) : List V3 :=
  (List.range (32 + 1)).map fun (i : ℕ) =>
    (radius * Real.cos (2 * Real.pi * (i : ℝ) / 32),
     radius * Real.sin (2 * Real.pi * (i : ℝ) / 32), 0)

/-- `extract_profile_def`: dispatch on the profile kind tag.  A `none`
profile yields the empty dictionary; a rectangle yields the four
corners centred at the origin plus a repeated closing vertex; a circle
yields 32 samples plus a closing vertex; an arbitrary closed profile
takes its outer curve's points verbatim; an I-shape records parameters
only; an unknown kind records only type and name. -/
def extract_profile_def : Option ProfileDef → ProfileData
  | none => {}
  | some p =>
    let base : ProfileData := { type := some p.typeString, name := p.profileNameOf }
    match p with
    | .rectangle _ xdim ydim =>
        { base with
          width := some xdim, height := some ydim,
          profile_vertices := some
            [(-(xdim / 2), -(ydim / 2), 0),
             (xdim / 2, -(ydim / 2), 0),
             (xdim / 2, ydim / 2, 0),
             (-(xdim / 2), ydim / 2, 0),
             (-(xdim / 2), -(ydim / 2), 0)] }
    | .circle _ radius =>
        { base with radius := some radius,
                    profile_vertices := some (circlePoints radius) }
    | .arbitraryClosed _ outerCurve =>
        match outerCurve with
        | .polyline points =>
            { base with profile_vertices := some (extract_polyline (some points)) }
        | .indexedPolyCurve coordList =>
            { base with profile_vertices := some (extract_indexed_poly_curve coordList) }
        | .otherCurve => base
    | .ishape _ ow od wt ft =>
        { base with overall_width := some ow, overall_depth := some od,
                    web_thickness := some wt, flange_thickness := some ft }
    | .otherProfile _ _ => base

/-! ## Placements and the placement-chain resolver -/

/-- The attributes of an IfcAxis2Placement3D the parser reads:
Location (a cartesian point's coordinates), and the optional Axis and
RefDirection directions (each a DirectionRatios list). -/
structure Axis2Placement3D : Type where
  location : Option (List ℝ)
  axis : Option (List ℝ)
  refDirection : Option (List ℝ)

/-- The dictionary returned by `extract_axis2_placement_3d`; the source
always populates all three keys. -/
structure PlacementData : Type where
  location : V3
  axis : V3
  ref_direction : V3

/-- `extract_axis2_placement_3d`: location, axis (local Z) and
ref_direction (local X) of a 3D placement, with defaults
(0,0,0) / (0,0,1) / (1,0,0) when the placement or an attribute is
absent. -/
def extract_axis2_placement_3d : Option Axis2Placement3D → PlacementData
  | none => { location := (0, 0, 0), axis := (0, 0, 1), ref_direction := (1, 0, 0) }
  | some p =>
    { location := extract_cartesian_point p.location,
      axis := match p.axis with
        | some a => extract_direction (some a)
        | none => (0, 0, 1),
      ref_direction := match p.refDirection with
        | some r => extract_direction (some r)
        | none => (1, 0, 0) }

/-- The guarded normalization used throughout `get_placement_matrix`:
`v / norm(v) if norm(v) > 0 else fallback`. -/
def normalizeOr (v fallback : V3) : V3 :=
  if 0 < norm3 v then div3 v (norm3 v) else fallback

/-- `get_placement_matrix`: builds the 4x4 transform whose columns 0-2
are the re-orthogonalized local X/Y/Z basis and whose column 3 is the
location.  Axis and ref_direction are normalized with fallbacks, Y is
their normalized cross product (fallback (0,1,0)), and X is recomputed
as Y x Z for orthogonality. -/
def get_placement_matrix (pd : PlacementData) : Mat4 :=
  let axis := normalizeOr pd.axis (0, 0, 1)
  let ref_direction := normalizeOr pd.ref_direction (1, 0, 0)
  let y_direction := normalizeOr (cross3 axis ref_direction) (0, 1, 0)
  let ref2 := cross3 y_direction axis
  !![ref2.1, y_direction.1, axis.1, pd.location.1;
     ref2.2.1, y_direction.2.1, axis.2.1, pd.location.2.1;
     ref2.2.2, y_direction.2.2, axis.2.2, pd.location.2.2;
     0, 0, 0, 1]

/-- The RelativePlacement carried by an IfcLocalPlacement: a 3D
placement, a 2D placement (only its location's coordinates are read),
or some other unhandled kind. -/
inductive RelPlacement : Type
  | axis2Placement3D (p : Axis2Placement3D)
  | axis2Placement2D (location : Option (List ℝ))
  | otherKind

/-- An ObjectPlacement chain node: an IfcLocalPlacement with an
optional RelativePlacement and an optional parent PlacementRelTo, or a
placement of an unrecognized type (at which the walk stops). -/
inductive ObjectPlacement : Type
  | localPlacement (relativePlacement : Option RelPlacement)
      (placementRelTo : Option ObjectPlacement)
  | otherPlacement

/-- One iteration body of the accumulation loop in
`extract_object_placement`: pre-multiply the link's local matrix into
the running total.  A 3D relative placement contributes its full
placement matrix, a 2D one contributes a translation built from the
first two location coordinates (indexing modelled with a 0 default),
and an absent or unrecognized relative placement leaves the total
unchanged. -/
def relStep : Option RelPlacement → Mat4 → Mat4
  | some (.axis2Placement3D p), total =>
      get_placement_matrix (extract_axis2_placement_3d (some p)) * total
  | some (.axis2Placement2D loc), total =>
      (transMat (match loc with
        | some coords => (coords.getD 0 0, coords.getD 1 0, 0)
        | none => (0, 0, 0))) * total
  | some .otherKind, total => total
  | none, total => total

/-- The while-loop of `extract_object_placement`, walking the chain
outward from the element: process the current IfcLocalPlacement link
and continue with its parent; stop when no parent link exists or the
link is of an unrecognized type. -/
def placementLoop : ObjectPlacement → Mat4 → Mat4
  | .localPlacement rel parent, total =>
    let total2 := relStep rel total
    match parent with
    | some q => placementLoop q total2
    | none => total2
  | .otherPlacement, total => total

/-- `extract_object_placement`: the full element-to-global 4x4
transform; an element without an ObjectPlacement yields the identity. -/
def extract_object_placement : Option ObjectPlacement → Mat4
  | none => 1
  | some p => placementLoop p 1

/-- A placement node in graph form, with parent links given by node id,
so that malformed cyclic parent chains are representable (the tree type
`ObjectPlacement` cannot represent them). -/
inductive GPlacement : Type
  | glocal (relativePlacement : Option RelPlacement) (placementRelTo : Option ℕ)
  | gother

/-- The same while-loop as `placementLoop`, over a graph-shaped store
of placement nodes, instrumented with fuel: `none` means the loop has
not terminated within the given number of iterations.  The source loop
has no iteration bound, so nontermination of this function at every
fuel value is nontermination of the source loop. -/
def placementLoopFuel (store : ℕ → GPlacement) :
    ℕ → Option ℕ → Mat4 → Option Mat4
  | 0, _, _ => none
  | _ + 1, none, total => some total
  | fuel + 1, some pid, total =>
    match store pid with
    | .glocal rel parent => placementLoopFuel store fuel parent (relStep rel total)
    | .gother => some total

/-- A chain of N nested IfcLocalPlacement links, innermost first, each
carrying a 3D relative placement with the given location and with Axis
and RefDirection absent (identity rotation defaults). -/
def chainOf : List V3 → Option ObjectPlacement
  | [] => none
  | t :: ts =>
    some (.localPlacement
      (some (.axis2Placement3D
        { location := some [t.1, t.2.1, t.2.2], axis := none, refDirection := none }))
      (chainOf ts))

/-- The componentwise sum of a list of translations. -/
def sum3 : List V3 → V3
  | [] => (0, 0, 0)
  | t :: ts => add3 t (sum3 ts)

/-! ## Solids, representation items, elements and openings -/

/-- The attributes of an IfcExtrudedAreaSolid the parser reads. -/
structure ExtrudedAreaSolid : Type where
  sweptArea : Option ProfileDef
  position : Option Axis2Placement3D
  extrudedDirection : Option (List ℝ)
  depth : ℝ

/-- The dictionary built by `extract_extruded_area_solid` (and, for a
faceted BREP, the note-only record); a `none` field models an absent
key, `has_boolean` is the tag added for boolean-clip results. -/
structure GeomData : Type where
  type : String
  profile : Option ProfileData := none
  position : Option PlacementData := none
  extrusion_direction : Option V3 := none
  depth : Option ℝ := none
  has_boolean : Bool := false
  note : Option String := none

/-- `extract_extruded_area_solid`: profile, position, extrusion
direction and depth of an extrusion solid. -/
def extract_extruded_area_solid (s : ExtrudedAreaSolid) : GeomData :=
  { type := "IfcExtrudedAreaSolid",
    profile := some (extract_profile_def s.sweptArea),
    position := some (extract_axis2_placement_3d s.position),
    extrusion_direction := some (extract_direction s.extrudedDirection),
    depth := some s.depth }

/-- A geometric representation item: an extrusion solid, a boolean
clipping result (with both operands), a faceted BREP, or anything
else. -/
inductive RepItem : Type
  | extrudedAreaSolid (s : ExtrudedAreaSolid)
  | booleanClippingResult (firstOperand : RepItem) (secondOperand : RepItem)
  | facetedBrep
  | otherItem

/-- The geometry records one representation item contributes inside the
items loop of `extract_element_geometry`: an extrusion solid yields its
extracted record; a boolean clipping result yields the record of its
first operand, tagged `has_boolean`, when that operand is an extrusion
solid, and nothing otherwise (the second operand is never inspected); a
faceted BREP yields a note-only record; anything else contributes
nothing. -/
def itemGeometry : RepItem → List GeomData
  | .extrudedAreaSolid s => [extract_extruded_area_solid s]
  | .booleanClippingResult firstOperand _ =>
    match firstOperand with
    | .extrudedAreaSolid s =>
        [{ extract_extruded_area_solid s with has_boolean := true }]
    | _ => []
  | .facetedBrep =>
      [{ type := "IfcFacetedBrep", note := some "Complex BREP geometry" }]
  | .otherItem => []

/-- One shape representation: its RepresentationIdentifier and Items. -/
structure ShapeRep : Type where
  representationIdentifier : Option String
  items : List RepItem

/-- An IfcProductRepresentation: the list of Representations. -/
structure ProductRep : Type where
  representations : List ShapeRep

/-- `get_element_shape_representation`: the first representation whose
identifier is Body, Model or Axis, if any. -/
def get_shape_representation (r : Option ProductRep) : Option ShapeRep :=
  match r with
  | none => none
  | some pr => pr.representations.find? fun rep =>
      match rep.representationIdentifier with
      | some id => (["Body", "Model", "Axis"] : List String).contains id
      | none => false

/-- An opening element (IfcOpeningElement): the attributes the parser
reads from it. -/
structure OpeningElement : Type where
  global_id : String
  name : Option String
  objectPlacement : Option ObjectPlacement
  representation : Option ProductRep

/-- A void relation on an element's HasOpenings inverse attribute. -/
inductive VoidRel : Type
  | relVoidsElement (relatedOpeningElement : Option OpeningElement)
  | otherRel

/-- A host element (wall, slab, ...): the attributes the parser reads. -/
structure Element : Type where
  element_type : String
  global_id : String
  name : Option String
  objectPlacement : Option ObjectPlacement
  representation : Option ProductRep
  hasOpenings : List VoidRel

/-- The per-opening dictionary built by `get_openings_for_element`. -/
structure OpeningData : Type where
  global_id : String
  name : Option String
  object_placement : Mat4
  geometry : List GeomData

/-- The solid-extraction loop over an opening's shape representation
items inside `get_openings_for_element`: only extruded area solids
contribute. -/
def openingGeometryOf (op : OpeningElement) : List GeomData :=
  match get_shape_representation op.representation with
  | none => []
  | some rep => rep.items.flatMap fun item =>
      match item with
      | .extrudedAreaSolid s => [extract_extruded_area_solid s]
      | _ => []

/-- The contribution of one HasOpenings relation inside
`get_openings_for_element`: for an IfcRelVoidsElement with a present
related opening, extract the opening's placement and the extrusion
solids of its shape representation, and keep the record only when its
geometry list is non-empty; any other relation contributes nothing. -/
def voidRelOpenings : VoidRel → List OpeningData
  | .relVoidsElement (some op) =>
    let opening_data : OpeningData :=
      { global_id := op.global_id,
        name := op.name,
        object_placement := extract_object_placement op.objectPlacement,
        geometry := openingGeometryOf op }
    if opening_data.geometry.isEmpty then [] else [opening_data]
  | .relVoidsElement none => []
  | .otherRel => []

/-- `get_openings_for_element`: all openings that cut the element, each
with its own placement and solids; openings with no extractable solids
are dropped. -/
def get_openings_for_element (e : Element) : List OpeningData :=
  e.hasOpenings.flatMap voidRelOpenings

/-- The dictionary built by `extract_element_geometry`. -/
structure ElementData : Type where
  element_type : String
  global_id : String
  name : Option String
  geometry : List GeomData
  object_placement : Mat4
  openings : List OpeningData

/-- `extract_element_geometry`: type, id, name, resolved placement, the
geometry records of the element's shape representation items, and the
element's openings. -/
def extract_element_geometry (e : Element) : ElementData :=
  { element_type := e.element_type,
    global_id := e.global_id,
    name := e.name,
    object_placement := extract_object_placement e.objectPlacement,
    geometry :=
      match get_shape_representation e.representation with
      | none => []
      | some rep => rep.items.flatMap itemGeometry,
    openings := get_openings_for_element e }

/-! ## MeshGenerator -/

/-- A triangle mesh: vertex list and triangular faces by vertex index. -/
structure Mesh : Type where
  vertices : List V3
  faces : List (ℕ × ℕ × ℕ)

/-- `MeshGenerator.create_rotation_matrix`: normalizes axis (Z) and
ref_direction (X) WITHOUT the zero-norm guards of
`get_placement_matrix`, takes Y = Z x X normalized (again unguarded),
recomputes X = Y x Z, and assembles the 4x4 rotation.  Division by a
zero norm is modelled by real division (junk value 0; the Python code
produces NaN there — in both semantics the result is not a rotation). -/
def create_rotation_matrix (axis ref_direction : V3) : Mat4 :=
  let z_axis := div3 axis (norm3 axis)
  let x_axis := div3 ref_direction (norm3 ref_direction)
  let y_axis0 := cross3 z_axis x_axis
  let y_axis := div3 y_axis0 (norm3 y_axis0)
  let x_axis2 := cross3 y_axis z_axis
  !![x_axis2.1, y_axis.1, z_axis.1, 0;
     x_axis2.2.1, y_axis.2.1, z_axis.2.1, 0;
     x_axis2.2.2, y_axis.2.2, z_axis.2.2, 0;
     0, 0, 0, 1]

/-- The wall/cap faces of an extrusion with an n-vertex boundary.
Modelled from the spec: trimesh.creation.extrude_polygon is the
standard polygon-extrusion primitive (cap-bottom, cap-top, wall
faces); its exact triangulation is internal to the external trimesh
library, so a fixed fan triangulation stands in for it. -/
def extrudeFaces (n : ℕ) : List (ℕ × ℕ × ℕ) :=
  ((List.range (n - 2)).map fun i => (0, i + 1, i + 2)) ++
  ((List.range (n - 2)).map fun i => (n, n + i + 2, n + i + 1)) ++
  ((List.range n).flatMap fun i =>
    [(i, (i + 1) % n, n + i), ((i + 1) % n, n + (i + 1) % n, n + i)])

/-- Modelled from the spec: `trimesh.creation.extrude_polygon` of the
external trimesh library extrudes a 2D polygon along +Z from 0 to
`height`, producing the boundary points duplicated at z = 0 and at
z = height (cap-bottom, cap-top, wall faces). -/
def extrude_polygon (boundary : List (ℝ × ℝ)) (height : ℝ) : Mesh :=
  { vertices :=
      (boundary.map fun p => (p.1, p.2, (0 : ℝ))) ++
      (boundary.map fun p => (p.1, p.2, height)),
    faces := extrudeFaces boundary.length }

/-- Application of an affine 4x4 transform to a point (the effect of
trimesh `apply_transform` on each vertex, with homogeneous weight 1). -/
def applyMat4 (M : Mat4) (v : V3) : V3 :=
  (M 0 0 * v.1 + M 0 1 * v.2.1 + M 0 2 * v.2.2 + M 0 3,
   M 1 0 * v.1 + M 1 1 * v.2.1 + M 1 2 * v.2.2 + M 1 3,
   M 2 0 * v.1 + M 2 1 * v.2.1 + M 2 2 * v.2.2 + M 2 3)

/-- `mesh.apply_transform(M)`: transform every vertex. -/
def apply_transform (M : Mat4) (m : Mesh) : Mesh :=
  { vertices := m.vertices.map (applyMat4 M), faces := m.faces }

/-- The default placement dictionary `{}` read through
`position.get(key, default)` in `extrude_profile`. -/
def defaultPlacementData : PlacementData :=
  { location := (0, 0, 0), axis := (0, 0, 1), ref_direction := (1, 0, 0) }

/-- `MeshGenerator.extrude_profile`: requires at least 3 profile
vertices (else None); builds the 2D polygon from the XY projection of
the profile vertices; computes `extrusion_vec = extrusion_direction *
depth` (never used afterwards, as in the source); extrudes the polygon
along +Z by `depth`; then applies the rotation built from the
placement's axis/ref_direction followed by the translation to the
placement's location. -/
def extrude_profile (profile_vertices : List V3) (depth : ℝ)
    (position : PlacementData) (extrusion_direction : V3) : Option Mesh :=
  if profile_vertices.length < 3 then none
  else
    let profile_2d := profile_vertices.map fun v => (v.1, v.2.1)
    let extrusion_vec := smul3 depth extrusion_direction
    let mesh := extrude_polygon profile_2d depth
    let rotation_matrix := create_rotation_matrix position.axis position.ref_direction
    let translation_matrix := transMat position.location
    let transform := translation_matrix * rotation_matrix
    some (apply_transform transform mesh)

/-- `MeshGenerator.create_mesh_from_geometry_data`: only extrusion
records produce a mesh; a record without profile vertices yields None;
otherwise the profile is extruded with the record's depth, position and
extrusion direction (defaults 0 / identity placement / +Z). -/
def create_mesh_from_geometry_data (geom_data : GeomData) : Option Mesh :=
  if geom_data.type ≠ "IfcExtrudedAreaSolid" then none
  else
    let profile := geom_data.profile.getD {type := ""}
    let profile_vertices := profile.profile_vertices.getD []
    if profile_vertices.isEmpty then none
    else
      extrude_profile profile_vertices (geom_data.depth.getD 0)
        (geom_data.position.getD defaultPlacementData)
        (geom_data.extrusion_direction.getD (0, 0, 1))

/-! ## PlotlyVisualizer: boolean subtraction and the opening pipeline -/

/-- Outcome of one attempted manifold boolean difference of the
external engine: it may throw, return None, or return a mesh. -/
inductive BoolOpResult : Type
  | throws
  | ok (result : Option Mesh)

/-- The body of the tools loop in `apply_boolean_difference`: keep the
difference result only when the call did not throw, returned a mesh,
and that mesh has at least one vertex; otherwise continue with the
running mesh unchanged. -/
def boolDiffStep (difference : Mesh → Mesh → BoolOpResult)
    (result_mesh tool_mesh : Mesh) : Mesh :=
  match difference result_mesh tool_mesh with
  | .throws => result_mesh
  | .ok none => result_mesh
  | .ok (some result) =>
      if 0 < result.vertices.length then result else result_mesh

/-- `PlotlyVisualizer.apply_boolean_difference`: subtract the tool
meshes sequentially from the base mesh, best-effort.  The external
boolean engine is a parameter. -/
def apply_boolean_difference (difference : Mesh → Mesh → BoolOpResult)
    (base_mesh : Mesh) (tool_meshes : List Mesh) : Mesh :=
  tool_meshes.foldl (boolDiffStep difference) base_mesh

/-- The opening-mesh construction loop of `add_element`: for every
opening, every geometry record that yields a mesh contributes that
mesh transformed by the opening's placement. -/
def openingMeshes (openings : List OpeningData) : List Mesh :=
  openings.flatMap fun opening =>
    opening.geometry.flatMap fun opening_geom =>
      match create_mesh_from_geometry_data opening_geom with
      | some m => [apply_transform opening.object_placement m]
      | none => []

/-- The per-solid subtraction step of `add_element`: boolean-subtract
the opening meshes only when there is at least one. -/
def hostMeshAfterOpenings (difference : Mesh → Mesh → BoolOpResult)
    (mesh : Mesh) (openings : List OpeningData) : Mesh :=
  let opening_meshes := openingMeshes openings
  if opening_meshes.isEmpty then mesh
  else apply_boolean_difference difference mesh opening_meshes

/-! ## Mesh bounds -/

/-- Minimum of a list of reals (numpy min over a coordinate axis);
0 for the empty list. -/
def listMin (xs : List ℝ) : ℝ := WithTop.untop' 0 xs.minimum

/-- Maximum of a list of reals; 0 for the empty list. -/
def listMax (xs : List ℝ) : ℝ := WithBot.unbot' 0 xs.maximum

/-- `mesh.bounds`: the (min-corner, max-corner) axis-aligned bounding
box of the vertex set. -/
def meshBounds (m : Mesh) : V3 × V3 :=
  ((listMin (m.vertices.map fun v => v.1),
    listMin (m.vertices.map fun v => v.2.1),
    listMin (m.vertices.map fun v => v.2.2)),
   (listMax (m.vertices.map fun v => v.1),
    listMax (m.vertices.map fun v => v.2.1),
    listMax (m.vertices.map fun v => v.2.2)))

/-! ## Helper lemmas -/

lemma dot3_self_nonneg (v : V3) : 0 ≤ dot3 v v := by
  unfold dot3
  nlinarith [mul_self_nonneg v.1, mul_self_nonneg v.2.1, mul_self_nonneg v.2.2]

lemma norm3_eq_one (v : V3) (h : dot3 v v = 1) : norm3 v = 1 := by
  rw [norm3, h, Real.sqrt_one]

lemma div3_one (v : V3) : div3 v 1 = v := by
  simp [div3]

lemma normalizeOr_unit (v f : V3) (h : dot3 v v = 1) : normalizeOr v f = v := by
  rw [normalizeOr, norm3_eq_one v h, if_pos one_pos, div3_one]

lemma cross3_zx : cross3 ((0 : ℝ), (0 : ℝ), (1 : ℝ)) (1, 0, 0) = (0, 1, 0) := by
  norm_num [cross3]

lemma cross3_yz : cross3 ((0 : ℝ), (1 : ℝ), (0 : ℝ)) (0, 0, 1) = (1, 0, 0) := by
  norm_num [cross3]

lemma add3_zero (t : V3) : add3 t (0, 0, 0) = t := by
  simp [add3]

lemma add3_comm (a b : V3) : add3 a b = add3 b a := by
  simp [add3, add_comm]

lemma transMat_mul (a b : V3) : transMat a * transMat b = transMat (add3 a b) := by
  ext i j
  fin_cases i <;> fin_cases j <;>
    simp [transMat, add3, Matrix.mul_apply, Fin.sum_univ_four, Matrix.vecHead,
          Matrix.vecTail] <;> ring

lemma transMat_zero : transMat (0, 0, 0) = 1 := by
  ext i j
  fin_cases i <;> fin_cases j <;>
    simp [transMat, Matrix.one_apply, Matrix.vecHead, Matrix.vecTail]

lemma castSucc3_zero : Fin.castSucc (0 : Fin 3) = (0 : Fin 4) := rfl

lemma castSucc3_one : Fin.castSucc (1 : Fin 3) = (1 : Fin 4) := rfl

lemma castSucc3_two : Fin.castSucc (2 : Fin 3) = (2 : Fin 4) := rfl

lemma rotPart_transMat (t : V3) : rotPart (transMat t) = 1 := by
  ext i j
  fin_cases i <;> fin_cases j <;>
    simp [rotPart, transMat, Matrix.one_apply, Matrix.vecHead, Matrix.vecTail,
      castSucc3_zero, castSucc3_one, castSucc3_two, Matrix.cons_val_two,
      Matrix.cons_val_three]

/-- The placement matrix of a location with default axis and
ref_direction is the pure translation. -/
lemma get_placement_matrix_default (t : V3) :
    get_placement_matrix { location := t, axis := (0, 0, 1), ref_direction := (1, 0, 0) }
      = transMat t := by
  have hz := normalizeOr_unit ((0 : ℝ), (0 : ℝ), (1 : ℝ)) (0, 0, 1) (by norm_num [dot3])
  have hx := normalizeOr_unit ((1 : ℝ), (0 : ℝ), (0 : ℝ)) (1, 0, 0) (by norm_num [dot3])
  have hy := normalizeOr_unit ((0 : ℝ), (1 : ℝ), (0 : ℝ)) (0, 1, 0) (by norm_num [dot3])
  simp only [get_placement_matrix, hz, hx, cross3_zx, hy, cross3_yz, transMat]

lemma extract_default_placement (t : V3) :
    extract_axis2_placement_3d
        (some { location := some [t.1, t.2.1, t.2.2], axis := none, refDirection := none })
      = { location := t, axis := (0, 0, 1), ref_direction := (1, 0, 0) } := rfl

lemma placementLoop_chainOf (ts : List V3) : ∀ (t : V3) (M : Mat4),
    placementLoop
      (ObjectPlacement.localPlacement
        (some (.axis2Placement3D
          { location := some [t.1, t.2.1, t.2.2], axis := none, refDirection := none }))
        (chainOf ts)) M
      = transMat (add3 t (sum3 ts)) * M := by
  induction ts with
  | nil =>
    intro t M
    simp only [chainOf, placementLoop, relStep, extract_default_placement,
      get_placement_matrix_default, sum3, add3_zero]
  | cons t2 ts2 ih =>
    intro t M
    simp only [chainOf, placementLoop, relStep, extract_default_placement,
      get_placement_matrix_default]
    rw [ih t2 (transMat t * M), ← Matrix.mul_assoc, transMat_mul]
    rw [show sum3 (t2 :: ts2) = add3 t2 (sum3 ts2) from rfl]
    rw [add3_comm t (add3 t2 (sum3 ts2))]

/-- Claim C1: for every chain of N nested IfcLocalPlacement links, each
carrying a 3D relative placement with default (absent) axis and
ref_direction — hence identity rotation — and translation t_i,
`extract_object_placement` returns a 4x4 transform whose rotation part
is the identity and whose translation column is the sum of the t_i. -/
theorem placement_chain_sum_translation (ts : List V3) :
    rotPart (extract_object_placement (chainOf ts)) = 1
    ∧ extract_object_placement (chainOf ts) 0 3 = (sum3 ts).1
    ∧ extract_object_placement (chainOf ts) 1 3 = (sum3 ts).2.1
    ∧ extract_object_placement (chainOf ts) 2 3 = (sum3 ts).2.2 := by
  have key : extract_object_placement (chainOf ts) = transMat (sum3 ts) := by
    cases ts with
    | nil =>
      rw [show chainOf [] = none from rfl,
        show sum3 [] = ((0 : ℝ), (0 : ℝ), (0 : ℝ)) from rfl, transMat_zero]
      rfl
    | cons t ts2 =>
      show placementLoop _ 1 = _
      rw [show sum3 (t :: ts2) = add3 t (sum3 ts2) from rfl]
      rw [placementLoop_chainOf ts2 t 1, mul_one]
  rw [key, rotPart_transMat]
  refine ⟨rfl, ?_, ?_, ?_⟩ <;>
    simp [transMat, Matrix.vecHead, Matrix.vecTail]

/-! ## C3: the accumulation loop has no safety counter -/

/-- A malformed cyclic placement store: node 0 is an IfcLocalPlacement
with no relative placement whose PlacementRelTo is node 0 itself. -/
def cyclicPlacementStore : ℕ → GPlacement := fun _ => .glocal none (some 0)

/-- Claim C3 (refuted; code bug): the source loop has NO visited-chain
safety counter, so on a malformed cyclic chain of parent links it never
terminates: on the self-referential placement of
`cyclicPlacementStore`, the fuel-instrumented loop `placementLoopFuel`
fails to terminate within every fuel bound. -/
theorem cyclic_placement_loop_never_terminates (fuel : ℕ) :
    ∀ total : Mat4,
      placementLoopFuel cyclicPlacementStore fuel (some 0) total = none := by
  induction fuel with
  | zero => intro total; rfl
  | succ n ih =>
    intro total
    show placementLoopFuel cyclicPlacementStore n (some 0) (relStep none total) = none
    exact ih total

/-! ## C10: the extrusion direction argument is ignored -/

/-- Claim C10: for every profile, depth and position, and every pair of
extrusion directions, `extrude_profile` produces identical meshes (the
extrusion vector is computed but never used; extrusion is always along
local Z by `depth`), and likewise `create_mesh_from_geometry_data` does
not depend on the record's extrusion_direction entry. -/
theorem extrude_profile_ignores_direction (profile_vertices : List V3)
    (depth : ℝ) (position : PlacementData) (d1 d2 : V3) (g : GeomData) :
    extrude_profile profile_vertices depth position d1
      = extrude_profile profile_vertices depth position d2
    ∧ create_mesh_from_geometry_data { g with extrusion_direction := some d1 }
      = create_mesh_from_geometry_data { g with extrusion_direction := some d2 } := by
  constructor
  · rfl
  · rfl

/-! ## C6: boolean subtraction failure policy -/

/-- Claim C6: `apply_boolean_difference` applies the tool meshes
sequentially (the fold steps through the list one tool at a time); a
tool whose subtraction throws, returns None, or yields a mesh with no
vertices leaves the running host unchanged for that tool while the
remaining tools are still processed; and an empty tool list returns
the host unchanged. -/
theorem boolean_difference_failure_policy
    (difference : Mesh → Mesh → BoolOpResult) (base tool : Mesh)
    (rest : List Mesh)
    (hfail : difference base tool = .throws ∨ difference base tool = .ok none
      ∨ ∃ r, difference base tool = .ok (some r) ∧ r.vertices = []) :
    apply_boolean_difference difference base [] = base
    ∧ apply_boolean_difference difference base (tool :: rest)
        = apply_boolean_difference difference (boolDiffStep difference base tool) rest
    ∧ boolDiffStep difference base tool = base := by
  refine ⟨rfl, rfl, ?_⟩
  rcases hfail with h | h | ⟨r, h, hr⟩
  · simp [boolDiffStep, h]
  · simp [boolDiffStep, h]
  · simp [boolDiffStep, h, hr]

/-- Witness for C6 at a concrete host, a throwing engine and one tool. -/
theorem boolean_difference_failure_policy_witness :
    apply_boolean_difference (fun _ _ => BoolOpResult.throws)
        { vertices := [(0, 0, 0)], faces := [] } [] = { vertices := [(0, 0, 0)], faces := [] }
    ∧ apply_boolean_difference (fun _ _ => BoolOpResult.throws)
        { vertices := [(0, 0, 0)], faces := [] } [{ vertices := [], faces := [] }]
        = apply_boolean_difference (fun _ _ => BoolOpResult.throws)
            (boolDiffStep (fun _ _ => BoolOpResult.throws)
              { vertices := [(0, 0, 0)], faces := [] } { vertices := [], faces := [] }) []
    ∧ boolDiffStep (fun _ _ => BoolOpResult.throws)
        { vertices := [(0, 0, 0)], faces := [] } { vertices := [], faces := [] }
        = { vertices := [(0, 0, 0)], faces := [] } :=
  boolean_difference_failure_policy (fun _ _ => BoolOpResult.throws)
    { vertices := [(0, 0, 0)], faces := [] } { vertices := [], faces := [] } []
    (Or.inl rfl)

/-! ## C7: boolean-clip items keep only their first operand -/

/-- Claim C7 counterexample: a boolean-clip representation item whose
first operand is itself a boolean-clip result contributes NO geometry
record (the source only handles a first operand that is an extruded
area solid), so a boolean-clip item does not always contribute exactly
one record. -/
theorem boolean_clip_nested_operand_cex :
    itemGeometry
      (.booleanClippingResult
        (.booleanClippingResult
          (.extrudedAreaSolid
            { sweptArea := none, position := none, extrudedDirection := none, depth := 1 })
          .otherItem)
        .otherItem) = [] := rfl

/-- Claim C7 (amended): a boolean-clip representation item whose first
operand is an extruded area solid contributes exactly one geometry
record, built from that first operand and tagged has_boolean; the
second operand never influences the contribution; and inside
`extract_element_geometry` such a single clip item yields exactly that
one record. -/
theorem boolean_clip_first_operand_only (s : ExtrudedAreaSolid)
    (f second second2 : RepItem) (et gid : String) (nm : Option String)
    (op : Option ObjectPlacement) (vr : List VoidRel) :
    itemGeometry (.booleanClippingResult (.extrudedAreaSolid s) second)
      = [{ extract_extruded_area_solid s with has_boolean := true }]
    ∧ itemGeometry (.booleanClippingResult f second)
        = itemGeometry (.booleanClippingResult f second2)
    ∧ (extract_element_geometry
        { element_type := et, global_id := gid, name := nm, objectPlacement := op,
          representation := some { representations :=
            [{ representationIdentifier := some "Body",
               items := [.booleanClippingResult (.extrudedAreaSolid s) second] }] },
          hasOpenings := vr }).geometry
      = [{ extract_extruded_area_solid s with has_boolean := true }] := by
  refine ⟨rfl, ?_, ?_⟩
  · cases f <;> rfl
  · rfl

/-! ## C5 and C9: profile vertex lists -/

/-- The vertex list of an extracted profile, read the way the mesh
generator reads it (`profile.get('profile_vertices', [])`). -/
def profileVertsOf (p : ProfileDef) : List V3 :=
  (extract_profile_def (some p)).profile_vertices.getD []

/-- Claim C5 counterexample: an arbitrary closed profile whose polyline
does not repeat its first point yields a non-empty vertex list whose
first and last points differ, so not every non-empty extracted profile
is explicitly closed. -/
theorem arbitrary_profile_not_closed_cex :
    profileVertsOf (.arbitraryClosed none (.polyline [[0, 0], [1, 0], [0, 1]])) ≠ []
    ∧ (profileVertsOf (.arbitraryClosed none (.polyline [[0, 0], [1, 0], [0, 1]]))).head?
      ≠ (profileVertsOf (.arbitraryClosed none (.polyline [[0, 0], [1, 0], [0, 1]]))).getLast? := by
  have hv : profileVertsOf (.arbitraryClosed none (.polyline [[0, 0], [1, 0], [0, 1]]))
      = [((0 : ℝ), (0 : ℝ), (0 : ℝ)), (1, 0, 0), (0, 1, 0)] := rfl
  rw [hv]
  constructor
  · simp
  · simp [List.getLast?, Prod.ext_iff]

/-- The closing sample of the circle profile equals its first sample. -/
lemma circlePoints_closed (R : ℝ) :
    (circlePoints R).head? = (circlePoints R).getLast? := by
  have h1 : List.range (32 + 1) = 0 :: List.map Nat.succ (List.range 32) :=
    List.range_succ_eq_map 32
  have h2 : List.range (32 + 1) = List.range 32 ++ [32] := List.range_succ 32
  have hhead : (circlePoints R).head?
      = some (R * Real.cos (2 * Real.pi * (0 : ℕ) / 32),
              R * Real.sin (2 * Real.pi * (0 : ℕ) / 32), 0) := by
    rw [circlePoints, h1]
    rfl
  have hlast : (circlePoints R).getLast?
      = some (R * Real.cos (2 * Real.pi * (32 : ℕ) / 32),
              R * Real.sin (2 * Real.pi * (32 : ℕ) / 32), 0) := by
    rw [circlePoints, h2, List.map_append]
    exact List.getLast?_concat _
  rw [hhead, hlast]
  have ha0 : 2 * Real.pi * (0 : ℕ) / 32 = 0 := by norm_num
  have ha32 : 2 * Real.pi * (32 : ℕ) / 32 = 2 * Real.pi := by
    push_cast
    ring
  rw [ha0, ha32, Real.cos_zero, Real.sin_zero, Real.cos_two_pi, Real.sin_two_pi]

/-- Claim C5 (amended): rectangle and circle profiles always produce a
non-empty vertex list that starts and ends with the same point; an
arbitrary closed profile takes its curve's points verbatim, so its
vertex list starts and ends with the same point exactly when the
source polyline itself repeats its first point as its last. -/
theorem profile_closure_amended (nm1 nm2 nm3 : Option String) (W H R : ℝ)
    (pts : List (List ℝ)) (hpts : pts.head? = pts.getLast?) :
    (profileVertsOf (.rectangle nm1 W H) ≠ []
      ∧ (profileVertsOf (.rectangle nm1 W H)).head?
          = (profileVertsOf (.rectangle nm1 W H)).getLast?)
    ∧ (profileVertsOf (.circle nm2 R) ≠ []
      ∧ (profileVertsOf (.circle nm2 R)).head?
          = (profileVertsOf (.circle nm2 R)).getLast?)
    ∧ (profileVertsOf (.arbitraryClosed nm3 (.polyline pts))).head?
        = (profileVertsOf (.arbitraryClosed nm3 (.polyline pts))).getLast? := by
  refine ⟨⟨?_, ?_⟩, ⟨?_, ?_⟩, ?_⟩
  · simp [profileVertsOf, extract_profile_def]
  · simp [profileVertsOf, extract_profile_def, List.getLast?]
  · simp [profileVertsOf, extract_profile_def, circlePoints]
  · exact circlePoints_closed R
  · show (List.map _ pts).head? = (List.map _ pts).getLast?
    rw [List.head?_map, List.getLast?_map, hpts]

/-- Claim C9: a circle profile with radius R has exactly 33 vertices
(32 equal-angle samples plus the closing vertex), and every non-closing
vertex (index i < 32) lies at distance R from the local origin. -/
theorem circle_profile_samples (R : ℝ) (i : ℕ) (hR : 0 ≤ R) (hi : i < 32) :
    (profileVertsOf (.circle none R)).length = 33
    ∧ norm3 ((profileVertsOf (.circle none R)).getD i (0, 0, 0)) = R := by
  constructor
  · simp [profileVertsOf, extract_profile_def, circlePoints]
  · have hv : (profileVertsOf (.circle none R)).getD i (0, 0, 0)
        = (R * Real.cos (2 * Real.pi * i / 32), R * Real.sin (2 * Real.pi * i / 32), 0) := by
      have hlt : i < 32 + 1 := Nat.lt_succ_of_lt hi
      rw [show profileVertsOf (.circle none R) = circlePoints R from rfl,
        circlePoints, List.getD_eq_getElem?_getD, List.getElem?_map,
        List.getElem?_range hlt]
      rfl
    rw [hv]
    have hcs := Real.cos_sq_add_sin_sq (2 * Real.pi * i / 32)
    have hdot : dot3
        (R * Real.cos (2 * Real.pi * i / 32), R * Real.sin (2 * Real.pi * i / 32), 0)
        (R * Real.cos (2 * Real.pi * i / 32), R * Real.sin (2 * Real.pi * i / 32), 0)
        = R ^ 2 := by
      simp only [dot3]
      linear_combination R ^ 2 * hcs
    rw [norm3, hdot, Real.sqrt_sq hR]

/-- Witness for C5 (amended) at unit rectangle/circle and a closed
3-point polyline. -/
theorem profile_closure_amended_witness :
    (profileVertsOf (.rectangle none 1 1) ≠ []
      ∧ (profileVertsOf (.rectangle none 1 1)).head?
          = (profileVertsOf (.rectangle none 1 1)).getLast?)
    ∧ (profileVertsOf (.circle none 1) ≠ []
      ∧ (profileVertsOf (.circle none 1)).head?
          = (profileVertsOf (.circle none 1)).getLast?)
    ∧ (profileVertsOf (.arbitraryClosed none (.polyline [[0, 0], [1, 0], [0, 0]]))).head?
        = (profileVertsOf (.arbitraryClosed none (.polyline [[0, 0], [1, 0], [0, 0]]))).getLast? :=
  profile_closure_amended none none none 1 1 1 [[0, 0], [1, 0], [0, 0]] rfl

/-- Witness for C9 at radius 2 and sample index 0. -/
theorem circle_profile_samples_witness :
    (profileVertsOf (.circle none 2)).length = 33
    ∧ norm3 ((profileVertsOf (.circle none 2)).getD 0 (0, 0, 0)) = 2 :=
  circle_profile_samples 2 0 (by norm_num) (by norm_num)

/-! ## C4: the two rotation-matrix paths -/

lemma norm3_zero3 : norm3 ((0 : ℝ), (0 : ℝ), (0 : ℝ)) = 0 := by
  simp [norm3, dot3]

lemma normalizeOr_pos (v f : V3) (h : 0 < norm3 v) :
    normalizeOr v f = div3 v (norm3 v) := if_pos h

lemma normalizeOr_not_pos (v f : V3) (h : ¬ 0 < norm3 v) :
    normalizeOr v f = f := if_neg h

/-- `create_rotation_matrix` at no-guard-needed default axes is the
identity matrix. -/
lemma create_rotation_matrix_default :
    create_rotation_matrix (0, 0, 1) (1, 0, 0) = 1 := by
  have hz : norm3 ((0 : ℝ), (0 : ℝ), (1 : ℝ)) = 1 := norm3_eq_one _ (by norm_num [dot3])
  have hx : norm3 ((1 : ℝ), (0 : ℝ), (0 : ℝ)) = 1 := norm3_eq_one _ (by norm_num [dot3])
  have hy : norm3 ((0 : ℝ), (1 : ℝ), (0 : ℝ)) = 1 := norm3_eq_one _ (by norm_num [dot3])
  simp only [create_rotation_matrix, hz, hx, div3_one, cross3_zx, hy, cross3_yz]
  ext i j
  fin_cases i <;> fin_cases j <;>
    simp [Matrix.one_apply, Matrix.vecHead, Matrix.vecTail]

lemma cross3_z_z :
    cross3 ((0 : ℝ), (0 : ℝ), (1 : ℝ)) (0, 0, 1) = ((0 : ℝ), (0 : ℝ), (0 : ℝ)) := by
  norm_num [cross3]

lemma cross3_zero_left (v : V3) :
    cross3 ((0 : ℝ), (0 : ℝ), (0 : ℝ)) v = ((0 : ℝ), (0 : ℝ), (0 : ℝ)) := by
  simp [cross3]

lemma div3_zero_num : div3 ((0 : ℝ), (0 : ℝ), (0 : ℝ)) 0 = ((0 : ℝ), (0 : ℝ), (0 : ℝ)) := by
  simp [div3]

/-- Claim C4 counterexample: at the parallel pair axis = ref_direction
= (0,0,1), the unguarded `create_rotation_matrix` divides by the zero
norm of the cross product (NaN in Python, junk 0 here) and its rotation
part is NOT the rotation part produced by `get_placement_matrix`
(which falls back to (0,1,0)), nor an orthonormal rotation: its first
column is zero. -/
theorem rotation_paths_disagree_cex :
    rotPart (create_rotation_matrix (0, 0, 1) (0, 0, 1))
      ≠ rotPart (get_placement_matrix
          { location := (0, 0, 0), axis := (0, 0, 1), ref_direction := (0, 0, 1) })
    ∧ (rotPart (create_rotation_matrix (0, 0, 1) (0, 0, 1))).transpose
        * rotPart (create_rotation_matrix (0, 0, 1) (0, 0, 1)) ≠ 1 := by
  have hz : norm3 ((0 : ℝ), (0 : ℝ), (1 : ℝ)) = 1 := norm3_eq_one _ (by norm_num [dot3])
  have hC : create_rotation_matrix (0, 0, 1) (0, 0, 1)
      = !![0, 0, 0, 0; 0, 0, 0, 0; 0, 0, 1, 0; 0, 0, 0, 1] := by
    simp only [create_rotation_matrix, hz, div3_one, cross3_z_z, norm3_zero3,
      div3_zero_num, cross3_zero_left]
  have hG : get_placement_matrix
      { location := ((0 : ℝ), (0 : ℝ), (0 : ℝ)), axis := (0, 0, 1), ref_direction := (0, 0, 1) }
      = transMat (0, 0, 0) := by
    have h1 := normalizeOr_unit ((0 : ℝ), (0 : ℝ), (1 : ℝ)) (0, 0, 1) (by norm_num [dot3])
    have h1b := normalizeOr_unit ((0 : ℝ), (0 : ℝ), (1 : ℝ)) (1, 0, 0) (by norm_num [dot3])
    have h2 : normalizeOr ((0 : ℝ), (0 : ℝ), (0 : ℝ)) (0, 1, 0) = (0, 1, 0) :=
      normalizeOr_not_pos _ _ (by rw [norm3_zero3]; exact lt_irrefl 0)
    simp only [get_placement_matrix, h1, h1b, cross3_z_z, h2, cross3_yz, transMat]
  constructor
  · intro heq
    have h00 := Matrix.ext_iff.mpr heq 0 0
    rw [hC, hG] at h00
    have hl : rotPart (!![(0 : ℝ), 0, 0, 0; 0, 0, 0, 0; 0, 0, 1, 0; 0, 0, 0, 1]) 0 0 = 0 := rfl
    have hr2 : rotPart (transMat ((0 : ℝ), (0 : ℝ), (0 : ℝ))) 0 0 = 1 := rfl
    rw [hl, hr2] at h00
    exact zero_ne_one h00
  · intro heq
    have h00 := Matrix.ext_iff.mpr heq 0 0
    rw [hC] at h00
    have hl : ((rotPart (!![(0 : ℝ), 0, 0, 0; 0, 0, 0, 0; 0, 0, 1, 0; 0, 0, 0, 1])).transpose
        * rotPart (!![(0 : ℝ), 0, 0, 0; 0, 0, 0, 0; 0, 0, 1, 0; 0, 0, 0, 1])) 0 0 = 0 := by
      simp [Matrix.mul_apply, Fin.sum_univ_three, rotPart, Matrix.vecHead, Matrix.vecTail,
        castSucc3_zero, castSucc3_one, castSucc3_two, Matrix.cons_val_two, Matrix.cons_val_three]
    rw [hl, Matrix.one_apply_eq] at h00
    exact zero_ne_one h00

lemma dot3_cross3_left (u v : V3) : dot3 (cross3 u v) u = 0 := by
  simp only [dot3, cross3]
  ring

lemma dot3_cross3_right (u v : V3) : dot3 (cross3 u v) v = 0 := by
  simp only [dot3, cross3]
  ring

lemma lagrange3 (u v : V3) :
    dot3 (cross3 u v) (cross3 u v) = dot3 u u * dot3 v v - dot3 u v ^ 2 := by
  simp only [dot3, cross3]
  ring

lemma dot3_div3_left (v : V3) (c : ℝ) (w : V3) :
    dot3 (div3 v c) w = dot3 v w / c := by
  simp only [dot3, div3]
  ring

lemma dot3_div3_self (v : V3) (h : 0 < norm3 v) :
    dot3 (div3 v (norm3 v)) (div3 v (norm3 v)) = 1 := by
  have hn : norm3 v ≠ 0 := ne_of_gt h
  have hd : norm3 v ^ 2 = dot3 v v := Real.sq_sqrt (dot3_self_nonneg v)
  have he : dot3 (div3 v (norm3 v)) (div3 v (norm3 v)) = dot3 v v / norm3 v ^ 2 := by
    simp only [dot3, div3]
    ring
  rw [he, hd]
  exact div_self (hd ▸ pow_ne_zero 2 hn)

lemma rotPart_cols_transpose_mul (a b c : V3)
    (haa : dot3 a a = 1) (hbb : dot3 b b = 1) (hcc : dot3 c c = 1)
    (hab : dot3 a b = 0) (hac : dot3 a c = 0) (hbc : dot3 b c = 0) :
    (rotPart !![a.1, b.1, c.1, 0; a.2.1, b.2.1, c.2.1, 0;
                a.2.2, b.2.2, c.2.2, 0; 0, 0, 0, 1]).transpose
      * rotPart !![a.1, b.1, c.1, 0; a.2.1, b.2.1, c.2.1, 0;
                   a.2.2, b.2.2, c.2.2, 0; 0, 0, 0, 1] = 1 := by
  simp only [dot3] at haa hbb hcc hab hac hbc
  ext i j
  fin_cases i <;> fin_cases j <;>
    simp [Matrix.mul_apply, Fin.sum_univ_three, rotPart, Matrix.one_apply,
      Matrix.vecHead, Matrix.vecTail, castSucc3_zero, castSucc3_one, castSucc3_two,
      Matrix.cons_val_two, Matrix.cons_val_three]
  · linear_combination haa
  · linear_combination hab
  · linear_combination hac
  · linear_combination hab
  · linear_combination hbb
  · linear_combination hbc
  · linear_combination hac
  · linear_combination hbc
  · linear_combination hcc

lemma rotPart_cols_det (a b c : V3) :
    (rotPart !![a.1, b.1, c.1, 0; a.2.1, b.2.1, c.2.1, 0;
                a.2.2, b.2.2, c.2.2, 0; 0, 0, 0, 1]).det
      = dot3 a (cross3 b c) := by
  simp [Matrix.det_fin_three, rotPart, dot3, cross3, Matrix.vecHead, Matrix.vecTail,
    castSucc3_zero, castSucc3_one, castSucc3_two, Matrix.cons_val_two, Matrix.cons_val_three]
  ring

/-- Claim C4 (amended): whenever the axis and ref_direction are both of
positive norm and their normalized cross product is of positive norm
(i.e. they are not parallel), the rotation part of the matrix built by
the placement path equals the rotation matrix built by the
mesh-synthesis path, and that matrix is a proper orthonormal rotation;
the unguarded mesh-synthesis path corrupts the result on zero-length or
parallel inputs (see the counterexample). -/
lemma rotPart_cols_loc (a b c l : V3) :
    rotPart !![a.1, b.1, c.1, l.1; a.2.1, b.2.1, c.2.1, l.2.1;
               a.2.2, b.2.2, c.2.2, l.2.2; 0, 0, 0, 1]
      = rotPart !![a.1, b.1, c.1, 0; a.2.1, b.2.1, c.2.1, 0;
                   a.2.2, b.2.2, c.2.2, 0; 0, 0, 0, 1] := by
  ext i j
  fin_cases i <;> fin_cases j <;>
    simp [rotPart, Matrix.vecHead, Matrix.vecTail, castSucc3_zero, castSucc3_one,
      castSucc3_two, Matrix.cons_val_two, Matrix.cons_val_three]

theorem rotation_paths_agree_orthonormal (loc axis ref : V3)
    (ha : 0 < norm3 axis) (hr : 0 < norm3 ref)
    (hy : 0 < norm3 (cross3 (div3 axis (norm3 axis)) (div3 ref (norm3 ref)))) :
    rotPart (get_placement_matrix { location := loc, axis := axis, ref_direction := ref })
      = rotPart (create_rotation_matrix axis ref)
    ∧ (rotPart (create_rotation_matrix axis ref)).transpose
        * rotPart (create_rotation_matrix axis ref) = 1
    ∧ (rotPart (create_rotation_matrix axis ref)).det = 1 := by
  have g1 := normalizeOr_pos axis (0, 0, 1) ha
  have g2 := normalizeOr_pos ref (1, 0, 0) hr
  have g3 := normalizeOr_pos (cross3 (div3 axis (norm3 axis)) (div3 ref (norm3 ref)))
    (0, 1, 0) hy
  set Z := div3 axis (norm3 axis) with hZdef
  set X := div3 ref (norm3 ref) with hXdef
  set Y := div3 (cross3 Z X) (norm3 (cross3 Z X)) with hYdef
  have hzz : dot3 Z Z = 1 := dot3_div3_self axis ha
  have hyy : dot3 Y Y = 1 := dot3_div3_self (cross3 Z X) hy
  have hyz : dot3 Y Z = 0 := by
    rw [hYdef, dot3_div3_left, dot3_cross3_left, zero_div]
  have haa : dot3 (cross3 Y Z) (cross3 Y Z) = 1 := by
    rw [lagrange3, hyy, hzz, hyz]
    norm_num
  have hGm : get_placement_matrix { location := loc, axis := axis, ref_direction := ref }
      = !![(cross3 Y Z).1, Y.1, Z.1, loc.1;
           (cross3 Y Z).2.1, Y.2.1, Z.2.1, loc.2.1;
           (cross3 Y Z).2.2, Y.2.2, Z.2.2, loc.2.2;
           0, 0, 0, 1] := by
    simp only [get_placement_matrix, g1, g2, g3]
  refine ⟨?_, ?_, ?_⟩
  · rw [hGm, rotPart_cols_loc]
    rfl
  · exact rotPart_cols_transpose_mul (cross3 Y Z) Y Z haa hyy hzz
      (dot3_cross3_left Y Z) (dot3_cross3_right Y Z) hyz
  · exact (rotPart_cols_det (cross3 Y Z) Y Z).trans haa

/-- Witness for C4 (amended) at the default axis (0,0,1) and
ref_direction (1,0,0). -/
theorem rotation_paths_agree_orthonormal_witness :
    rotPart (get_placement_matrix
        { location := (0, 0, 0), axis := (0, 0, 1), ref_direction := (1, 0, 0) })
      = rotPart (create_rotation_matrix (0, 0, 1) (1, 0, 0))
    ∧ (rotPart (create_rotation_matrix (0, 0, 1) (1, 0, 0))).transpose
        * rotPart (create_rotation_matrix (0, 0, 1) (1, 0, 0)) = 1
    ∧ (rotPart (create_rotation_matrix (0, 0, 1) (1, 0, 0))).det = 1 :=
  rotation_paths_agree_orthonormal (0, 0, 0) (0, 0, 1) (1, 0, 0)
    (by norm_num [norm3, dot3, Real.sqrt_one])
    (by norm_num [norm3, dot3, Real.sqrt_one])
    (by norm_num [norm3, dot3, div3, cross3, Real.sqrt_one])

/-! ## C2: rectangle extrusion bounding boxes -/

lemma listMin_eq (xs : List ℝ) (b : ℝ) (hmem : b ∈ xs) (hle : ∀ y ∈ xs, b ≤ y) :
    listMin xs = b := by
  have h : xs.minimum = (b : WithTop ℝ) := List.minimum_eq_coe_iff.mpr ⟨hmem, hle⟩
  rw [listMin, h]
  exact WithTop.untop'_coe 0 b

lemma listMax_eq (xs : List ℝ) (b : ℝ) (hmem : b ∈ xs) (hle : ∀ y ∈ xs, y ≤ b) :
    listMax xs = b := by
  have h : xs.maximum = (b : WithBot ℝ) := List.maximum_eq_coe_iff.mpr ⟨hmem, hle⟩
  rw [listMax, h]
  exact WithBot.unbot'_coe 0 b

lemma applyMat4_one (v : V3) : applyMat4 1 v = v := by
  simp [applyMat4, Matrix.one_apply]

lemma apply_transform_one (m : Mesh) : apply_transform 1 m = m := by
  have h : ∀ vs : List V3, List.map (applyMat4 1) vs = vs := by
    intro vs
    induction vs with
    | nil => rfl
    | cons v vs2 ih => simp [applyMat4_one, ih]
  simp [apply_transform, h]

lemma applyMat4_transMat (t v : V3) :
    applyMat4 (transMat t) v = (v.1 + t.1, v.2.1 + t.2.1, v.2.2 + t.2.2) := by
  simp [applyMat4, transMat, Matrix.vecHead, Matrix.vecTail, Matrix.cons_val_two,
    Matrix.cons_val_three]

/-- Claim C2: a rectangle profile of positive width W and height H
(IFC XDim/YDim are positive lengths) extruded with identity placement
by depth d > 0 yields a mesh with bounding box
[-W/2,W/2] x [-H/2,H/2] x [0,d]; and the end-to-end record with
W = 200, H = 100, depth 300 and placement location (10,20,30) with
default axis/ref_direction yields bounding box
[-90,110] x [-30,70] x [30,330]. -/
theorem rect_extrusion_bbox (W H d : ℝ) (hW : 0 < W) (hH : 0 < H) (hd : 0 < d) :
    Option.map meshBounds
        (extrude_profile (profileVertsOf (.rectangle none W H)) d
          defaultPlacementData (0, 0, 1))
      = some ((-(W / 2), -(H / 2), 0), (W / 2, H / 2, d))
    ∧ Option.map meshBounds
        (create_mesh_from_geometry_data
          { type := "IfcExtrudedAreaSolid",
            profile := some (extract_profile_def (some (.rectangle none 200 100))),
            position := some
              { location := (10, 20, 30), axis := (0, 0, 1), ref_direction := (1, 0, 0) },
            extrusion_direction := some (0, 0, 1),
            depth := some 300 })
      = some ((-90, -30, 30), (110, 70, 330)) := by
  constructor
  · have hm : extrude_profile (profileVertsOf (.rectangle none W H)) d
        defaultPlacementData (0, 0, 1)
        = some (apply_transform
            (transMat ((0 : ℝ), (0 : ℝ), (0 : ℝ)) * create_rotation_matrix (0, 0, 1) (1, 0, 0))
            (extrude_polygon
              [(-(W / 2), -(H / 2)), (W / 2, -(H / 2)), (W / 2, H / 2),
               (-(W / 2), H / 2), (-(W / 2), -(H / 2))] d)) := rfl
    rw [hm, create_rotation_matrix_default, mul_one, transMat_zero, apply_transform_one]
    refine congrArg some ?_
    have hvx : (extrude_polygon
        [(-(W / 2), -(H / 2)), (W / 2, -(H / 2)), (W / 2, H / 2),
         (-(W / 2), H / 2), (-(W / 2), -(H / 2))] d).vertices.map (fun v => v.1)
        = [-(W / 2), W / 2, W / 2, -(W / 2), -(W / 2),
           -(W / 2), W / 2, W / 2, -(W / 2), -(W / 2)] := rfl
    have hvy : (extrude_polygon
        [(-(W / 2), -(H / 2)), (W / 2, -(H / 2)), (W / 2, H / 2),
         (-(W / 2), H / 2), (-(W / 2), -(H / 2))] d).vertices.map (fun v => v.2.1)
        = [-(H / 2), -(H / 2), H / 2, H / 2, -(H / 2),
           -(H / 2), -(H / 2), H / 2, H / 2, -(H / 2)] := rfl
    have hvz : (extrude_polygon
        [(-(W / 2), -(H / 2)), (W / 2, -(H / 2)), (W / 2, H / 2),
         (-(W / 2), H / 2), (-(W / 2), -(H / 2))] d).vertices.map (fun v => v.2.2)
        = [0, 0, 0, 0, 0, d, d, d, d, d] := rfl
    rw [meshBounds, hvx, hvy, hvz]
    refine Prod.ext (Prod.ext ?_ (Prod.ext ?_ ?_)) (Prod.ext ?_ (Prod.ext ?_ ?_))
    · exact listMin_eq _ _ (by simp)
        (by intro y hy; fin_cases hy <;> linarith)
    · exact listMin_eq _ _ (by simp)
        (by intro y hy; fin_cases hy <;> linarith)
    · exact listMin_eq _ _ (by simp)
        (by intro y hy; fin_cases hy <;> linarith)
    · exact listMax_eq _ _ (by simp)
        (by intro y hy; fin_cases hy <;> linarith)
    · exact listMax_eq _ _ (by simp)
        (by intro y hy; fin_cases hy <;> linarith)
    · exact listMax_eq _ _ (by simp)
        (by intro y hy; fin_cases hy <;> linarith)
  · have hm2 : create_mesh_from_geometry_data
        { type := "IfcExtrudedAreaSolid",
          profile := some (extract_profile_def (some (.rectangle none 200 100))),
          position := some
            { location := (10, 20, 30), axis := (0, 0, 1), ref_direction := (1, 0, 0) },
          extrusion_direction := some (0, 0, 1),
          depth := some 300 }
        = some (apply_transform
            (transMat ((10 : ℝ), (20 : ℝ), (30 : ℝ)) * create_rotation_matrix (0, 0, 1) (1, 0, 0))
            (extrude_polygon
              [(-(200 / 2), -(100 / 2)), (200 / 2, -(100 / 2)), (200 / 2, 100 / 2),
               (-(200 / 2), 100 / 2), (-(200 / 2), -(100 / 2))] 300)) := rfl
    rw [hm2, create_rotation_matrix_default, mul_one]
    refine congrArg some ?_
    have hverts : (apply_transform (transMat ((10 : ℝ), (20 : ℝ), (30 : ℝ)))
        (extrude_polygon
          [(-(200 / 2), -(100 / 2)), (200 / 2, -(100 / 2)), (200 / 2, 100 / 2),
           (-(200 / 2), 100 / 2), (-(200 / 2), -(100 / 2))] 300)).vertices
        = [(-90, -30, 30), (110, -30, 30), (110, 70, 30), (-90, 70, 30), (-90, -30, 30),
           (-90, -30, 330), (110, -30, 330), (110, 70, 330), (-90, 70, 330),
           (-90, -30, 330)] := by
      simp only [apply_transform, extrude_polygon, List.map_cons, List.map_nil,
        List.map_append, applyMat4_transMat]
      norm_num
    rw [meshBounds, hverts]
    refine Prod.ext (Prod.ext ?_ (Prod.ext ?_ ?_)) (Prod.ext ?_ (Prod.ext ?_ ?_))
    · exact listMin_eq _ _ (by norm_num)
        (by intro y hy; fin_cases hy <;> norm_num)
    · exact listMin_eq _ _ (by norm_num)
        (by intro y hy; fin_cases hy <;> norm_num)
    · exact listMin_eq _ _ (by norm_num)
        (by intro y hy; fin_cases hy <;> norm_num)
    · exact listMax_eq _ _ (by norm_num)
        (by intro y hy; fin_cases hy <;> norm_num)
    · exact listMax_eq _ _ (by norm_num)
        (by intro y hy; fin_cases hy <;> norm_num)
    · exact listMax_eq _ _ (by norm_num)
        (by intro y hy; fin_cases hy <;> norm_num)

/-- Witness for C2 at W = 4, H = 2, d = 10. -/
theorem rect_extrusion_bbox_witness :
    Option.map meshBounds
        (extrude_profile (profileVertsOf (.rectangle none 4 2)) 10
          defaultPlacementData (0, 0, 1))
      = some ((-(4 / 2), -(2 / 2), 0), (4 / 2, 2 / 2, 10))
    ∧ Option.map meshBounds
        (create_mesh_from_geometry_data
          { type := "IfcExtrudedAreaSolid",
            profile := some (extract_profile_def (some (.rectangle none 200 100))),
            position := some
              { location := (10, 20, 30), axis := (0, 0, 1), ref_direction := (1, 0, 0) },
            extrusion_direction := some (0, 0, 1),
            depth := some 300 })
      = some ((-90, -30, 30), (110, 70, 330)) :=
  rect_extrusion_bbox 4 2 10 (by norm_num) (by norm_num) (by norm_num)

/-! ## C8: openings with no extractable solids are dropped -/

/-- Claim C8: every opening returned by `get_openings_for_element` has
a non-empty geometry list; an opening whose solid extraction yields no
extractable solids contributes nothing to the returned list; and for an
element whose openings list comes out empty, the per-solid subtraction
step returns the host mesh unchanged. -/
theorem openings_nonempty_and_host_unchanged (e e2 : Element)
    (op : OpeningElement) (o : OpeningData)
    (difference : Mesh → Mesh → BoolOpResult) (m : Mesh)
    (ho : o ∈ get_openings_for_element e)
    (hop : openingGeometryOf op = [])
    (he2 : get_openings_for_element e2 = []) :
    o.geometry ≠ []
    ∧ voidRelOpenings (.relVoidsElement (some op)) = []
    ∧ hostMeshAfterOpenings difference m (get_openings_for_element e2) = m := by
  refine ⟨?_, ?_, ?_⟩
  · rw [get_openings_for_element] at ho
    obtain ⟨rel, hrel, hmem⟩ := List.mem_flatMap.mp ho
    cases rel with
    | otherRel => simp [voidRelOpenings] at hmem
    | relVoidsElement oe =>
      cases oe with
      | none => simp [voidRelOpenings] at hmem
      | some op2 =>
        simp only [voidRelOpenings] at hmem
        by_cases hgeo : (openingGeometryOf op2).isEmpty
        · rw [if_pos hgeo] at hmem
          simp at hmem
        · rw [if_neg hgeo] at hmem
          rw [List.mem_singleton.mp hmem]
          intro hnil
          exact hgeo (List.isEmpty_iff.mpr hnil)
  · simp [voidRelOpenings, hop]
  · rw [he2]
    simp [hostMeshAfterOpenings, openingMeshes]

/-- A concrete extrusion solid for the C8 witness. -/
def wSolid : ExtrudedAreaSolid :=
  { sweptArea := some (.rectangle none 2 2), position := none,
    extrudedDirection := none, depth := 5 }

/-- A concrete opening with one extractable solid. -/
def wOpeningFull : OpeningElement :=
  { global_id := "op1", name := none, objectPlacement := none,
    representation := some { representations :=
      [{ representationIdentifier := some "Body",
         items := [.extrudedAreaSolid wSolid] }] } }

/-- A concrete opening with no extractable solids. -/
def wOpeningEmpty : OpeningElement :=
  { global_id := "op2", name := none, objectPlacement := none, representation := none }

/-- A concrete host element with one non-empty opening. -/
def wHost : Element :=
  { element_type := "IfcWall", global_id := "w1", name := none,
    objectPlacement := none, representation := none,
    hasOpenings := [.relVoidsElement (some wOpeningFull)] }

/-- A concrete host element whose only opening has no solids. -/
def wHostEmpty : Element :=
  { element_type := "IfcWall", global_id := "w2", name := none,
    objectPlacement := none, representation := none,
    hasOpenings := [.relVoidsElement (some wOpeningEmpty)] }

/-- The opening record `get_openings_for_element` returns for `wHost`. -/
def wOpeningData : OpeningData :=
  { global_id := "op1", name := none,
    object_placement := extract_object_placement none,
    geometry := openingGeometryOf wOpeningFull }

/-- Witness for C8 at the concrete host elements above. -/
theorem openings_nonempty_and_host_unchanged_witness :
    wOpeningData.geometry ≠ []
    ∧ voidRelOpenings (.relVoidsElement (some wOpeningEmpty)) = []
    ∧ hostMeshAfterOpenings (fun _ _ => BoolOpResult.throws)
        { vertices := [], faces := [] } (get_openings_for_element wHostEmpty)
        = { vertices := [], faces := [] } :=
  openings_nonempty_and_host_unchanged wHost wHostEmpty wOpeningEmpty wOpeningData
    (fun _ _ => BoolOpResult.throws) { vertices := [], faces := [] }
    (by show wOpeningData ∈ [wOpeningData]; exact List.mem_singleton.mpr rfl)
    rfl rfl

end QtoViz

end
